import Mathlib

/-!
Verification of the "fetchy" HTTP request helper.

The repository contains four near-duplicate variants of the same wrapper:
  * V1: `src/lib/fetchy.ts` — instance class, `timeout` option, AbortController,
    error cause attached.
  * A : first section of the unnamed companion file — static class,
    `cache: "no-cache" | "default"` enum flag.
  * B : second section of the unnamed companion file — instance class,
    `timeout` + `responseType` (json/text/blob/arrayBuffer) options.
  * C : third section of the unnamed companion file — static class,
    `shouldCache` boolean flag.

We embed each variant as pure functions.  The external transport (`fetch`) is
a black box: we model the `RequestInit` record handed to it, and its `Response`
as a value exposing a status flag and the results of its body-decoding methods
(`json()` is modelled as `Option JsonValue`, `none` meaning the body is not
valid JSON and the decode rejects).
-/

/-- JSON values, as produced by `JSON.parse` / consumed by `JSON.stringify`.
Numbers are modelled as integers (the claims exercise no fractional values). -/
inductive JsonValue where
  | null
  | bool (b : Bool)
  | num (n : Int)
  | str (s : String)
  | arr (xs : List JsonValue)
  | obj (fields : List (String × JsonValue))

/-- Property lookup on a parsed JSON object; when `JSON.parse` sees duplicate
keys the last one wins, so the fold keeps the last binding. -/
def jsLookupJ (fs : List (String × JsonValue)) (k : String) : Option JsonValue :=
  fs.foldl (fun acc p => if p.1 = k then some p.2 else acc) none

/-- Lookup in a JS header record (last binding wins, as for object literals). -/
def jsLookupStr (hs : List (String × String)) (k : String) : Option String :=
  hs.foldl (fun acc p => if p.1 = k then some p.2 else acc) none

/-- JavaScript truthiness of a JSON value (`null`, `false`, `0` and `""` are
falsy; every array and object is truthy). -/
def jsTruthy : JsonValue → Bool
  | .null => false
  | .bool b => b
  | .num n => n != 0
  | .str s => s != ""
  | .arr _ => true
  | .obj _ => true

mutual
/-- `String(v)` coercion applied by the `Error` constructor to a non-string
message value. Arrays render as their comma-joined elements, objects as
`[object Object]`. -/
def jsToString : JsonValue → String
  | .null => "null"
  | .bool b => if b then "true" else "false"
  | .num n => toString n
  | .str s => s
  | .arr xs => String.intercalate "," (jsArrElemStrs xs)
  | .obj _ => "[object Object]"

/-- Element rendering used by `Array.prototype.join`: `null` becomes the
empty string. -/
def jsArrElemStrs : List JsonValue → List String
  | [] => []
  | .null :: rest => "" :: jsArrElemStrs rest
  | v :: rest => jsToString v :: jsArrElemStrs rest
end

/-- Hex digit for `\uXXXX` escapes. -/
def hexDigit (n : Nat) : Char :=
  if n < 10 then Char.ofNat (48 + n) else Char.ofNat (87 + n)

/-- `JSON.stringify` escaping of a single character inside a string literal. -/
def escapeJsonChar (c : Char) : String :=
  if c = '"' then "\\\""
  else if c = '\\' then "\\\\"
  else if c = '\n' then "\\n"
  else if c = '\t' then "\\t"
  else if c = '\r' then "\\r"
  else if c.toNat < 32 then
    "\\u00" ++ String.mk [hexDigit (c.toNat / 16), hexDigit (c.toNat % 16)]
  else String.singleton c

/-- `JSON.stringify` escaping of a whole string. -/
def escapeJson (s : String) : String :=
  String.join (s.toList.map escapeJsonChar)

mutual
/-- `JSON.stringify`, the serialization applied to `post`/`put` bodies. -/
def jsonStringify : JsonValue → String
  | .null => "null"
  | .bool b => if b then "true" else "false"
  | .num n => toString n
  | .str s => "\"" ++ escapeJson s ++ "\""
  | .arr xs => "[" ++ String.intercalate "," (stringifyElems xs) ++ "]"
  | .obj fs => "\x7b" ++ String.intercalate "," (stringifyFields fs) ++ "\x7d"

def stringifyElems : List JsonValue → List String
  | [] => []
  | v :: rest => jsonStringify v :: stringifyElems rest

def stringifyFields : List (String × JsonValue) → List String
  | [] => []
  | (k, v) :: rest => ("\"" ++ escapeJson k ++ "\":" ++ jsonStringify v) :: stringifyFields rest
end

/-- The failures a call can surface to its caller.
`errorMsg` is the wrapper's own `new Error(message, ...)`, with a flag
recording whether the response object was attached as the error cause;
`jsonSyntaxError` is a rejected `response.json()` (body not valid JSON)
propagating; `typeErrorNullRead` is the TypeError from reading `.message`
on a parsed `null`; `abortError` is the AbortController cancellation;
`transportFailure` is a network-level rejection of `fetch` itself. -/
inductive JsError where
  | errorMsg (message : String) (hasResponseCause : Bool)
  | jsonSyntaxError
  | typeErrorNullRead
  | abortError
  | transportFailure
  deriving DecidableEq

/-- `error.message` property access on the parsed error body: only objects
carry a `message` property (`null` is handled separately because reading a
property of `null` throws). -/
def messageProp : JsonValue → Option JsonValue
  | .obj fs => jsLookupJ fs "message"
  | _ => none

/-- `error.message || fallback`, followed by the `Error` constructor's string
coercion of the chosen value. -/
def orFallback (m : Option JsonValue) (fb : String) : String :=
  match m with
  | some mv => if jsTruthy mv then jsToString mv else fb
  | none => fb

/-- The error produced on a non-success status from the parsed body:
`const error = await response.json(); throw new Error(error.message || fb)`.
A body that is not valid JSON makes `response.json()` reject, so that
rejection propagates instead of the wrapper error; a body parsing to `null`
throws a TypeError when `.message` is read. -/
def errorFromBody (fb : String) (hasCause : Bool) : Option JsonValue → JsError
  | none => .jsonSyntaxError
  | some .null => .typeErrorNullRead
  | some v => .errorMsg (orFallback (messageProp v) fb) hasCause

/-! ## Variant V1: `src/lib/fetchy.ts` -/

/-- Options accepted by V1's `request` (`FetchOptions extends RequestInit`):
the fields the wrapper itself touches, plus the `RequestInit` passthrough
fields relevant to the claims. `signal` is `Option Unit`: only the presence
of a caller-supplied abort signal matters. -/
structure FetchOptions where
  headers : Option (List (String × String)) := none
  timeout : Option Nat := none
  method : Option String := none
  body : Option String := none
  signal : Option Unit := none

/-- The `RequestInit` record handed to `fetch` by V1.
`usesControllerSignal` records whether the `signal` slot still holds the
timeout controller's signal after the options spread. -/
structure SentInit where
  headers : List (String × String)
  method : Option String
  body : Option String
  usesControllerSignal : Bool

/-- The init object V1's `request` builds:
`{ headers: { "Content-Type": "application/json", ...fetchOptions.headers },`
`  signal: controller.signal, ...fetchOptions }`.
Spread semantics: the trailing `...fetchOptions` re-assigns every own
property of the (timeout-stripped) options, so a caller-supplied `headers`
record replaces the merged header object wholesale, and a caller-supplied
`signal` replaces the controller's. -/
def sentInitV1 (o : FetchOptions) : SentInit :=
  { headers :=
      match o.headers with
      | some h => h
      | none => [("Content-Type", "application/json")]
    method := o.method
    body := o.body
    usesControllerSignal := o.signal.isNone }

/-- The transport's response as V1 observes it: the `ok` status flag and the
outcome of `response.json()` (`none` when the body is not valid JSON). -/
structure FetchResponse where
  ok : Bool := true
  jsonBody : Option JsonValue := none

/-- Outcome of the awaited `fetch` call itself. -/
inductive TransportResult where
  | resolved (r : FetchResponse)
  | netError

/-- The generic fallback message of V1. -/
def fallbackV1 : String := "An error occurred while fetching the data."

/-- V1's processing of the settled transport call (the body of `request`
after `await fetch`): non-success statuses raise, success statuses return
the parsed JSON body, and a success body that is not valid JSON makes the
returned `response.json()` promise reject. -/
def settleV1 : TransportResult → Except JsError JsonValue
  | .netError => .error .transportFailure
  | .resolved r =>
    if r.ok then
      match r.jsonBody with
      | some v => .ok v
      | none => .error .jsonSyntaxError
    else
      .error (errorFromBody fallbackV1 true r.jsonBody)

/-- `get`: `request(url, { ...options, method: "GET" })`. -/
def getOpts (o : FetchOptions) : FetchOptions :=
  { o with method := some "GET" }

/-- `post`: `request(url, { ...options, method: "POST", body: JSON.stringify(body) })`. -/
def postOpts (b : JsonValue) (o : FetchOptions) : FetchOptions :=
  { o with method := some "POST", body := some (jsonStringify b) }

/-- `put`: `request(url, { ...options, method: "PUT", body: JSON.stringify(body) })`. -/
def putOpts (b : JsonValue) (o : FetchOptions) : FetchOptions :=
  { o with method := some "PUT", body := some (jsonStringify b) }

/-- `delete`: `request(url, { ...options, method: "DELETE" })`. -/
def deleteOpts (o : FetchOptions) : FetchOptions :=
  { o with method := some "DELETE" }

/-- Effective timeout: `const { timeout = 5000, ... } = options`. -/
def effTimeoutV1 (o : FetchOptions) : Nat :=
  o.timeout.getD 5000

/-- How the transport behaves in time: it settles (resolves or rejects at the
network level) at some instant, or it never settles. -/
inductive TransportBehavior where
  | completes (t : Nat) (res : TransportResult)
  | hangs

/-- Observable outcome of one timed run of V1's `request`.
`abortFired` records that the `setTimeout` callback ran (calling
`controller.abort()`); `timerCleared` records that the `finally` block's
`clearTimeout` executed. -/
inductive TimedOutcome where
  | settled (res : Except JsError JsonValue) (atTime : Nat) (abortFired : Bool)
      (timerCleared : Bool)
  | pendingForever (abortFired : Bool)

/-- Timed semantics of V1's `request`: the timer is armed for
`effTimeoutV1 o`; if the transport settles strictly first the timer is
cleared by the `finally` block without firing.  Otherwise the timer fires
and calls `controller.abort()`; that cancels the in-flight call only when
the init's `signal` slot still holds the controller's signal (a
caller-supplied `signal` in the options replaces it via the trailing
spread, detaching the timeout from the call). -/
def runTimedV1 (o : FetchOptions) (b : TransportBehavior) : TimedOutcome :=
  let T := effTimeoutV1 o
  let attached := (sentInitV1 o).usesControllerSignal
  match b with
  | .completes t res =>
    if t < T then
      .settled (settleV1 res) t false true
    else if attached then
      .settled (.error .abortError) T true true
    else
      .settled (settleV1 res) t true true
  | .hangs =>
    if attached then
      .settled (.error .abortError) T true true
    else
      .pendingForever true

/-! ## Variant B: the responseType/timeout variant of the companion file -/

/-- Options of variant B (`FetchOptions` with `timeout` and `responseType`).
`responseType` is kept as an arbitrary string because the variant's
`parseResponse` explicitly handles unrecognized values in its default
branch. -/
structure FetchOptionsB where
  headers : Option (List (String × String)) := none
  timeout : Option Nat := none
  responseType : Option String := none
  method : Option String := none
  body : Option String := none
  signal : Option Unit := none

/-- Variant B's response: the status flag together with the results of the
four body-decoding methods the wrapper may invoke (`json()` is `none` when
the body is not valid JSON; blobs and array buffers are byte sequences). -/
structure FetchResponseB where
  ok : Bool := true
  jsonBody : Option JsonValue := none
  textBody : String := ""
  blobBody : List Nat := []
  bufBody : List Nat := []

/-- A decoded success value of variant B, one constructor per
`responseType`. -/
inductive DecodedB where
  | json (v : JsonValue)
  | text (s : String)
  | blob (bytes : List Nat)
  | arrayBuffer (bytes : List Nat)

/-- The generic fallback message of variant B. -/
def fallbackB : String := "An error occurred while fetching the data."

/-- `options.responseType || "json"`: `undefined` and the empty string are
falsy, so both select `"json"`. -/
def effFormatB (o : FetchOptionsB) : String :=
  match o.responseType with
  | none => "json"
  | some s => if s = "" then "json" else s

/-- Variant B's `parseResponse`: a switch on `options.responseType || "json"`,
written as the equivalent strict-equality chain.  The default branch throws
`new Error("Unsupported response type: " + options.responseType)` (with no
cause).  On the `json` branch a body that is not valid JSON makes
`response.json()` reject. -/
def parseResponseB (r : FetchResponseB) (o : FetchOptionsB) : Except JsError DecodedB :=
  let fmt := effFormatB o
  if fmt = "json" then
    match r.jsonBody with
    | some v => .ok (.json v)
    | none => .error .jsonSyntaxError
  else if fmt = "text" then .ok (.text r.textBody)
  else if fmt = "blob" then .ok (.blob r.blobBody)
  else if fmt = "arrayBuffer" then .ok (.arrayBuffer r.bufBody)
  else .error (.errorMsg ("Unsupported response type: " ++ fmt) false)

/-- The init record variant B hands to `fetch`; built exactly like V1's
(the trailing `...fetchOptions` spread again overrides the merged headers
and the controller signal; `responseType` also leaks into the init but
`fetch` ignores unknown fields, so it is not recorded). -/
def sentInitB (o : FetchOptionsB) : SentInit :=
  { headers :=
      match o.headers with
      | some h => h
      | none => [("Content-Type", "application/json")]
    method := o.method
    body := o.body
    usesControllerSignal := o.signal.isNone }

/-- Outcome of variant B's awaited `fetch`. -/
inductive TransportResultB where
  | resolved (r : FetchResponseB)
  | netError

/-- One run of variant B's `request` once the transport has settled:
the init that was handed to `fetch` (the transport call is issued before any
response inspection) together with the call's result.  On a non-success
status the body is parsed only when `options.responseType === "json"`
holds strictly — with `responseType` omitted the fallback message is used
without reading the body. -/
structure CallB where
  sentInit : SentInit
  result : Except JsError DecodedB

def requestB (o : FetchOptionsB) (t : TransportResultB) : CallB :=
  { sentInit := sentInitB o
    result :=
      match t with
      | .netError => .error .transportFailure
      | .resolved r =>
        if r.ok then
          parseResponseB r o
        else if o.responseType = some "json" then
          .error (errorFromBody fallbackB true r.jsonBody)
        else
          .error (.errorMsg fallbackB true) }

/-! ## Variant A: the static class with the `cache` enum flag -/

/-- Options of variant A: the caching flag is the narrowed `cache` field
itself (`"no-cache" | "default"`), and it is destructured out of the
options before the spread, so it cannot be re-introduced by passthrough. -/
structure FetchOptionsA where
  cache : Option String := none
  headers : Option (List (String × String)) := none
  method : Option String := none
  body : Option String := none

/-- The init record variant A hands to `fetch`, including its `cache`
directive slot. -/
structure SentInitA where
  headers : List (String × String)
  cache : Option String
  method : Option String
  body : Option String

/-- Variant A's init:
`{ headers: {...}, ...(cache === "no-cache" ? { cache: "no-cache" } : {}),`
`  ...fetchOptions }` where `fetchOptions` is the options without `cache`.
The conditional spread survives (nothing later re-assigns `cache`), while a
caller-supplied `headers` record still replaces the merged header object. -/
def sentInitA (o : FetchOptionsA) : SentInitA :=
  { headers :=
      match o.headers with
      | some h => h
      | none => [("Content-Type", "application/json")]
    cache := if o.cache = some "no-cache" then some "no-cache" else none
    method := o.method
    body := o.body }

/-! ## Variant C: the static class with the `shouldCache` boolean flag -/

/-- Options of variant C: `shouldCache` is the wrapper's own flag
(destructured out with default `true`), while `cache` is the ordinary
`RequestInit` passthrough field a caller may also supply. -/
structure FetchOptionsC where
  shouldCache : Option Bool := none
  cache : Option String := none
  headers : Option (List (String × String)) := none
  method : Option String := none
  body : Option String := none

/-- Variant C's init:
`{ headers: {...}, ...(shouldCache ? {} : { cache: "no-cache" }),`
`  ...fetchOptions }`.  The conditional spread adds the directive when
`shouldCache` is false, but the trailing options spread re-assigns `cache`
whenever the caller passed one. -/
def sentInitC (o : FetchOptionsC) : SentInitA :=
  { headers :=
      match o.headers with
      | some h => h
      | none => [("Content-Type", "application/json")]
    cache :=
      match o.cache with
      | some c => some c
      | none => if o.shouldCache.getD true then none else some "no-cache"
    method := o.method
    body := o.body }

/-- Variant C's `get`. -/
def getOptsC (o : FetchOptionsC) : FetchOptionsC :=
  { o with method := some "GET" }

/-- Variant C's `post`. -/
def postOptsC (b : JsonValue) (o : FetchOptionsC) : FetchOptionsC :=
  { o with method := some "POST", body := some (jsonStringify b) }

/-- Variant C's `put`. -/
def putOptsC (b : JsonValue) (o : FetchOptionsC) : FetchOptionsC :=
  { o with method := some "PUT", body := some (jsonStringify b) }

/-- Variant C's `delete`. -/
def deleteOptsC (o : FetchOptionsC) : FetchOptionsC :=
  { o with method := some "DELETE" }

/-! ## Claim theorems -/

/-- C1: the claim says the transmitted headers are the caller headers merged
over a default set containing Content-Type: application/json.  The code
violates this (and its own doc comment "Automatically sets Content-Type"):
the trailing options spread replaces the merged header object with the raw
caller headers, so a caller header set that does not mention Content-Type is
transmitted without it.  This evaluation exhibits the failing input: a GET
with caller headers containing only Authorization is transmitted without any
Content-Type entry, in both the V1 and the enum-cache variants; only a call
with no caller headers at all keeps the default. -/
theorem fetchy_headers_content_type_dropped :
  (sentInitV1 (getOpts { headers := some [("Authorization", "Bearer x")] })).headers
      = [("Authorization", "Bearer x")]
  ∧ jsLookupStr
      (sentInitV1 (getOpts { headers := some [("Authorization", "Bearer x")] })).headers
      "Content-Type" = none
  ∧ jsLookupStr (sentInitV1 (getOpts {})).headers "Content-Type"
      = some "application/json"
  ∧ (sentInitA { headers := some [("Authorization", "Bearer x")] }).headers
      = [("Authorization", "Bearer x")] :=
  ⟨rfl, rfl, rfl, rfl⟩

/-- C2 (amended): when the transport returns a response, the call returns a
value exactly when the status is a success AND the body decodes as JSON; a
non-success status always raises, and a success status with a body that is
not valid JSON raises the body-decoding failure instead of returning. -/
theorem fetchy_success_iff_ok_and_json (r : FetchResponse) (v : JsonValue) :
    settleV1 (.resolved r) = .ok v ↔ (r.ok = true ∧ r.jsonBody = some v) := by
  unfold settleV1
  cases hok : r.ok <;> cases hj : r.jsonBody <;> simp [hok, hj]

/-- C2 witness: the specification scenario GET /user/1 with status 200 and
JSON body an object with id 1 and name "A" returns that object. -/
theorem fetchy_success_iff_ok_and_json_witness :
    settleV1 (.resolved
        { ok := true, jsonBody := some (.obj [("id", .num 1), ("name", .str "A")]) })
      = .ok (.obj [("id", .num 1), ("name", .str "A")]) :=
  (fetchy_success_iff_ok_and_json _ _).mpr ⟨rfl, rfl⟩

/-- C2 counterexample: a response with a success status whose body is not
valid JSON makes the call raise (the rejected body decode), refuting "on a
success status it returns a decoded body value instead of raising". -/
theorem fetchy_ok_nonjson_raises :
    settleV1 (.resolved { ok := true, jsonBody := none }) = .error .jsonSyntaxError :=
  rfl

/-- C3 (amended): on a non-success status, when the body parses as a JSON
object the raised wrapper error's message is the object's message field if
that field is a non-empty string, and the generic fallback if the field is
absent or the empty string; a body that is not valid JSON instead propagates
the body-decoding failure (not a wrapper error carrying the fallback), and a
body parsing to JSON null raises the TypeError from reading the field. -/
theorem fetchy_error_message_cases (r : FetchResponse) (h : r.ok = false) :
    (r.jsonBody = none → settleV1 (.resolved r) = .error .jsonSyntaxError)
    ∧ (∀ fs m, r.jsonBody = some (.obj fs) → jsLookupJ fs "message" = some (.str m) →
        m ≠ "" → settleV1 (.resolved r) = .error (.errorMsg m true))
    ∧ (∀ fs, r.jsonBody = some (.obj fs) → jsLookupJ fs "message" = none →
        settleV1 (.resolved r) = .error (.errorMsg fallbackV1 true))
    ∧ (∀ fs, r.jsonBody = some (.obj fs) → jsLookupJ fs "message" = some (.str "") →
        settleV1 (.resolved r) = .error (.errorMsg fallbackV1 true))
    ∧ (r.jsonBody = some .null → settleV1 (.resolved r) = .error .typeErrorNullRead) := by
  refine ⟨?_, ?_, ?_, ?_, ?_⟩
  · intro hj
    simp [settleV1, h, hj, errorFromBody]
  · intro fs m hj hm hne
    simp [settleV1, h, hj, errorFromBody, messageProp, orFallback, hm, jsTruthy,
      jsToString, hne]
  · intro fs hj hm
    simp [settleV1, h, hj, errorFromBody, messageProp, orFallback, hm]
  · intro fs hj hm
    simp [settleV1, h, hj, errorFromBody, messageProp, orFallback, hm, jsTruthy]
  · intro hj
    simp [settleV1, h, hj, errorFromBody]

/-- C3 witness: the specification scenario GET /missing with a 404 response
whose JSON body carries message "not found" fails with exactly that
message. -/
theorem fetchy_error_message_cases_witness :
    settleV1 (.resolved
        { ok := false, jsonBody := some (.obj [("message", .str "not found")]) })
      = .error (.errorMsg "not found" true) :=
  ((fetchy_error_message_cases _ rfl).2.1) [("message", .str "not found")] "not found"
    rfl rfl (by decide)

/-- C3 counterexample: a non-success response whose body is not valid JSON.
The claim says the raised error's message is then the generic fallback; the
code instead awaits response.json, whose rejection propagates, so the caller
sees the body-decoding failure and no wrapper error carrying the fallback is
raised. -/
theorem fetchy_error_invalid_json_propagates :
    settleV1 (.resolved { ok := false, jsonBody := none }) = .error .jsonSyntaxError
    ∧ JsError.jsonSyntaxError ≠ JsError.errorMsg fallbackV1 true :=
  ⟨rfl, by decide⟩

/-- C10: on a non-success status whose JSON object body has a message field
equal to the empty string, the empty string is falsy, so the wrapper error
carries the generic fallback message rather than the empty string. -/
theorem fetchy_empty_message_fallback (r : FetchResponse) (fs : List (String × JsonValue))
    (h1 : r.ok = false) (h2 : r.jsonBody = some (.obj fs))
    (h3 : jsLookupJ fs "message" = some (.str "")) :
    settleV1 (.resolved r) = .error (.errorMsg fallbackV1 true) := by
  simp [settleV1, h1, h2, errorFromBody, messageProp, orFallback, h3, jsTruthy]

/-- C10 witness: a 404 body with an empty message field yields the fallback
message. -/
theorem fetchy_empty_message_fallback_witness :
    settleV1 (.resolved { ok := false, jsonBody := some (.obj [("message", .str "")]) })
      = .error (.errorMsg fallbackV1 true) :=
  fetchy_empty_message_fallback _ [("message", .str "")] rfl rfl rfl

/-- C4: for every successful call of the responseType variant, the decoded
result's representation matches the requested format: json yields the parsed
structured value of the body, text the raw string, blob the opaque binary
object, arrayBuffer the byte buffer; an omitted responseType selects json. -/
theorem fetchyB_success_matches_format (o : FetchOptionsB) (r : FetchResponseB)
    (d : DecodedB) (h : (requestB o (.resolved r)).result = .ok d) :
    (effFormatB o = "json" → ∃ v, r.jsonBody = some v ∧ d = .json v)
    ∧ (effFormatB o = "text" → d = .text r.textBody)
    ∧ (effFormatB o = "blob" → d = .blob r.blobBody)
    ∧ (effFormatB o = "arrayBuffer" → d = .arrayBuffer r.bufBody)
    ∧ (o.responseType = none → effFormatB o = "json") := by
  cases hok : r.ok
  · exfalso
    by_cases hrt : o.responseType = some "json" <;> simp [requestB, hok, hrt] at h
  · have hp : parseResponseB r o = .ok d := by simpa [requestB, hok] using h
    refine ⟨?_, ?_, ?_, ?_, ?_⟩
    · intro hf
      rw [parseResponseB, hf] at hp
      simp at hp
      cases hj : r.jsonBody with
      | none => rw [hj] at hp; simp at hp
      | some v => rw [hj] at hp; simp at hp; exact ⟨v, rfl, hp.symm⟩
    · intro hf
      rw [parseResponseB, hf] at hp
      simp at hp
      exact hp.symm
    · intro hf
      rw [parseResponseB, hf] at hp
      simp at hp
      exact hp.symm
    · intro hf
      rw [parseResponseB, hf] at hp
      simp at hp
      exact hp.symm
    · intro hn
      simp [effFormatB, hn]

/-- C4 witness: a successful call with responseType text decodes to the raw
body string. -/
theorem fetchyB_success_matches_format_witness :
    (requestB { responseType := some "text" } (.resolved { textBody := "hi" })).result
      = .ok (.text "hi")
    ∧ DecodedB.text "hi"
      = .text ({ textBody := "hi" : FetchResponseB }).textBody :=
  ⟨rfl, (fetchyB_success_matches_format { responseType := some "text" }
    { textBody := "hi" } (.text "hi") rfl).2.1 rfl⟩

/-- C5 (amended): an unrecognized responseFormat makes the call fail with an
"Unsupported response type" error, but only after the transport call is
issued and only on a success-status response: the init record is handed to
the transport regardless, and a non-success response raises the generic HTTP
error instead, so no validation happens before network activity. -/
theorem fetchyB_unrecognized_format_after_fetch (o : FetchOptionsB)
    (r : FetchResponseB) (s : String) (hf : effFormatB o = s)
    (hs : s ≠ "json" ∧ s ≠ "text" ∧ s ≠ "blob" ∧ s ≠ "arrayBuffer")
    (hok : r.ok = true) :
    (requestB o (.resolved r)).result
        = .error (.errorMsg ("Unsupported response type: " ++ s) false)
    ∧ (requestB o (.resolved r)).sentInit = sentInitB o
    ∧ (∀ r2 : FetchResponseB, r2.ok = false →
        (requestB o (.resolved r2)).result = .error (.errorMsg fallbackB true)) := by
  have hrt : o.responseType = some s := by
    rw [effFormatB] at hf
    cases hj : o.responseType with
    | none => rw [hj] at hf; exact absurd hf.symm hs.1
    | some t =>
      rw [hj] at hf
      by_cases ht : t = ""
      · rw [ht] at hf; simp at hf; exact absurd hf.symm hs.1
      · simp [ht] at hf; rw [hf]
  have hne : o.responseType ≠ some "json" := by
    rw [hrt]
    intro hcon
    exact hs.1 (Option.some.inj hcon)
  refine ⟨?_, rfl, ?_⟩
  · simp only [requestB, hok, if_true]
    rw [parseResponseB]
    simp [hf, hs.1, hs.2.1, hs.2.2.1, hs.2.2.2]
  · intro r2 h2
    simp [requestB, h2, hne]

/-- C5 witness: responseType "xml" with a success-status response fails with
the unsupported-response-type error. -/
theorem fetchyB_unrecognized_format_after_fetch_witness :
    effFormatB { responseType := some "xml" } = "xml"
    ∧ (requestB { responseType := some "xml" } (.resolved { ok := true })).result
        = .error (.errorMsg ("Unsupported response type: " ++ "xml") false) :=
  ⟨rfl, (fetchyB_unrecognized_format_after_fetch { responseType := some "xml" }
    { ok := true } "xml" rfl
    ⟨by decide, by decide, by decide, by decide⟩ rfl).1⟩

/-- C5 counterexample: with responseType "xml", the result is a function of
the transport's response — a success response raises the unsupported error,
a failure response raises the generic HTTP error, and a network failure
surfaces the transport failure.  The unsupported error therefore is not
raised before network activity completes, contradicting the claim that the
error is raised without the transport call being issued. -/
theorem fetchyB_unsupported_raised_only_after_response :
    (requestB { responseType := some "xml" } (.resolved { ok := true })).result
        = .error (.errorMsg "Unsupported response type: xml" false)
    ∧ (requestB { responseType := some "xml" } (.resolved { ok := false })).result
        = .error (.errorMsg fallbackB true)
    ∧ (requestB { responseType := some "xml" } .netError).result
        = .error .transportFailure :=
  ⟨rfl, rfl, rfl⟩

/-- C6: the claim says every call not completing within the timeout window
fails with an abort-style error.  The code violates this (the timeout
feature's documented intent): the trailing options spread re-assigns the
signal slot, so a caller-supplied signal detaches the timeout controller
from the call.  At the failing input — options carrying a caller signal,
transport completing at 6000 ms against the default 5000 ms window — the
abort timer fires but the call still settles successfully at 6000 ms.
Without a caller signal the same run aborts at 5000 ms as claimed, and in
both runs the timer is cleared at settlement. -/
theorem fetchy_timeout_signal_override :
    runTimedV1 { signal := some () }
        (.completes 6000 (.resolved { ok := true, jsonBody := some (.obj []) }))
      = .settled (.ok (.obj [])) 6000 true true
    ∧ effTimeoutV1 { signal := some () } = 5000
    ∧ runTimedV1 {}
        (.completes 6000 (.resolved { ok := true, jsonBody := some (.obj []) }))
      = .settled (.error .abortError) 5000 true true :=
  ⟨rfl, rfl, rfl⟩

/-- C7: post and put hand the transport exactly the JSON serialization of the
body value, and get and delete attach no body of their own. -/
theorem fetchy_body_serialization (b : JsonValue) (o : FetchOptions) :
    (sentInitV1 (postOpts b o)).body = some (jsonStringify b)
    ∧ (sentInitV1 (putOpts b o)).body = some (jsonStringify b)
    ∧ (o.body = none →
        (sentInitV1 (getOpts o)).body = none
        ∧ (sentInitV1 (deleteOpts o)).body = none) :=
  ⟨rfl, rfl, fun h => ⟨h, h⟩⟩

/-- C7 witness: the specification scenario POST /user with body an object
mapping name to "B" transmits the JSON text of that object, and a GET with
no caller body transmits none. -/
theorem fetchy_body_serialization_witness :
    (sentInitV1 (postOpts (.obj [("name", .str "B")]) {})).body
      = some "\x7b\"name\":\"B\"\x7d"
    ∧ (sentInitV1 (getOpts {})).body = none :=
  ⟨((fetchy_body_serialization (.obj [("name", .str "B")]) {}).1).trans (by rfl),
   ((fetchy_body_serialization (.obj [("name", .str "B")]) {}).2.2 rfl).1⟩

/-- C8 (amended): the enum variant always hands the transport the no-cache
directive when the flag says no-cache and adds none otherwise (the flag is
destructured out of the passthrough options, so nothing can override it);
the boolean variant hands the directive for shouldCache false only when the
caller does not also pass a transport-level cache option, because the
trailing options spread re-assigns the cache slot, and when the flag permits
caching the wrapper adds nothing and passes the caller's cache option
through unchanged. -/
theorem fetchy_cache_flag_translation (oa : FetchOptionsA) (oc : FetchOptionsC) :
    (oa.cache = some "no-cache" → (sentInitA oa).cache = some "no-cache")
    ∧ (oa.cache ≠ some "no-cache" → (sentInitA oa).cache = none)
    ∧ (oc.shouldCache = some false → oc.cache = none →
        (sentInitC oc).cache = some "no-cache")
    ∧ (oc.shouldCache ≠ some false → (sentInitC oc).cache = oc.cache) := by
  refine ⟨?_, ?_, ?_, ?_⟩
  · intro h; simp [sentInitA, h]
  · intro h; simp [sentInitA, h]
  · intro h1 h2; simp [sentInitC, h1, h2]
  · intro h
    have hg : oc.shouldCache.getD true = true := by
      cases hsc : oc.shouldCache with
      | none => rfl
      | some b =>
        cases b
        · exact absurd hsc h
        · rfl
    cases hc : oc.cache <;> simp [sentInitC, hc, hg]

/-- C8 witness: cache no-cache in the enum variant and shouldCache false in
the boolean variant both hand the transport the no-cache directive. -/
theorem fetchy_cache_flag_translation_witness :
    (sentInitA { cache := some "no-cache" }).cache = some "no-cache"
    ∧ (sentInitC { shouldCache := some false }).cache = some "no-cache" :=
  ⟨(fetchy_cache_flag_translation { cache := some "no-cache" }
      { shouldCache := some false }).1 rfl,
   (fetchy_cache_flag_translation { cache := some "no-cache" }
      { shouldCache := some false }).2.2.1 rfl rfl⟩

/-- C8 counterexample: in the boolean variant, shouldCache false together
with a caller-passed transport cache option hands the transport that option,
not the no-cache directive, refuting the claim for that input. -/
theorem fetchyC_cache_passthrough_overrides :
    (sentInitC { shouldCache := some false, cache := some "force-cache" }).cache
      = some "force-cache"
    ∧ (some "force-cache" : Option String) ≠ some "no-cache" :=
  ⟨rfl, by decide⟩

/-- C9: the convenience entry points force their own HTTP method even when
the caller's options carry a conflicting method field, in both the V1 and
the boolean-flag variants (the method assignment follows the options spread,
so it wins). -/
theorem fetchy_methods_forced (o : FetchOptions) (b : JsonValue) (oc : FetchOptionsC) :
    (sentInitV1 (getOpts o)).method = some "GET"
    ∧ (sentInitV1 (postOpts b o)).method = some "POST"
    ∧ (sentInitV1 (putOpts b o)).method = some "PUT"
    ∧ (sentInitV1 (deleteOpts o)).method = some "DELETE"
    ∧ (sentInitC (getOptsC oc)).method = some "GET"
    ∧ (sentInitC (postOptsC b oc)).method = some "POST"
    ∧ (sentInitC (putOptsC b oc)).method = some "PUT"
    ∧ (sentInitC (deleteOptsC oc)).method = some "DELETE" :=
  ⟨rfl, rfl, rfl, rfl, rfl, rfl, rfl, rfl⟩
